import Mathlib

/-!
Shallow embedding of the `ariocp/mlog` logging library.

The repository holds two near-duplicate implementations of the logger core
(`LogExtended` in `logger/logger.go`); its own design notes say to treat them
as variants of one design:

* Variant 1 ("V1"): `New` with `log.Lmsgprefix`, `SetOutput` installs a
  buffered writer over the file alone, `Flush` only flushes the buffer,
  no `Close` method.
* Variant 2 ("V2"): `SetOutput` installs a buffered writer over
  `io.MultiWriter(file, os.Stdout)`, `Flush` flushes the buffer and then
  syncs the file, and there is a `Close` method.  The package-level wrapper
  `mlog/mlog.go` is wired to this variant.

I/O is modelled by injecting the results of the underlying operating-system
calls (file open, buffer flush, file sync, line write) as parameters, and by
recording the side effects each operation performs as an explicit trace of
`Effect`s.  `sync.RWMutex` is not reentrant in Go: `mu.Lock()` while the same
goroutine already holds the exclusive lock blocks forever.  Lock acquisition
is therefore modelled by a `muHeld` flag, and an acquisition attempt while
the lock is held produces a distinguished deadlock outcome.
-/

namespace Mlog

/-- Go `type LogLevel int8`; the values of the Go type are modelled as
integers. -/
abbrev LogLevel := Int

/-- `LogLevelDebug LogLevel = iota` -/
def LogLevelDebug : LogLevel := 0

/-- `LogLevelInfo` -/
def LogLevelInfo : LogLevel := 1

/-- `LogLevelWarning` -/
def LogLevelWarning : LogLevel := 2

/-- `LogLevelError` -/
def LogLevelError : LogLevel := 3

/-- `LogLevelFatal` -/
def LogLevelFatal : LogLevel := 4

/-- Go `func (l LogLevel) String() string`: a switch over the five defined
constants with default `"UNKNOWN"` (identical in both variants). -/
def levelString (l : LogLevel) : String :=
  if l = LogLevelDebug then "DEBUG"
  else if l = LogLevelInfo then "INFO"
  else if l = LogLevelWarning then "WARNING"
  else if l = LogLevelError then "ERROR"
  else if l = LogLevelFatal then "FATAL"
  else "UNKNOWN"

/-- The writer an `io.Writer` chain ultimately targets: the console stream
(`os.Stdout`), an open file (identified by a numeric handle), or the binary
`io.MultiWriter(a, b)` tee the code builds. -/
inductive Dest where
  | console : Dest
  | fileDest : Nat → Dest
  | multi : Dest → Dest → Dest
deriving DecidableEq, Repr

/-- The leaf destinations a writer fans out to. -/
def Dest.targets : Dest → List Dest
  | .console => [.console]
  | .fileDest h => [.fileDest h]
  | .multi a b => a.targets ++ b.targets

/-- A `bufio.Writer`, identified by the destination it wraps. -/
structure BufWriter where
  dest : Dest
deriving DecidableEq, Repr

/-- An I/O error value (Go `error`). -/
structure IOErr where
  msg : String
deriving DecidableEq, Repr

/-- The mutable fields of Go's `LogExtended` struct.  In both variants the
`log.Logger` field always writes through the buffered writer stored next to
it (they are installed together by `New` and `SetOutput`), so a single sink
field models the pair. -/
structure LogExtended where
  logLevel : LogLevel
  bufWriter : Option BufWriter
  logFile : Option Nat
deriving DecidableEq, Repr

/-- The destination the `log.Logger` writes through.  In every state the
code constructs, `bufWriter` is non-nil; the `none` fallback is unreachable. -/
def LogExtended.sinkDest (l : LogExtended) : Dest :=
  match l.bufWriter with
  | some b => b.dest
  | none => Dest.console

/-- Observable side effects of a logger operation, in program order. -/
inductive Effect where
  | flushBuf : Dest → Effect
  | openAttempt : String → Effect
  | closeFile : Nat → Effect
  | syncFile : Nat → Effect
  | writeLine : String → Dest → Effect
  | exitProcess : Nat → Effect
deriving DecidableEq, Repr

/-- Go `func New() *LogExtended`: a buffered writer over `os.Stdout`,
level `LogLevelInfo`, no backing file.  (Both variants; they differ only in
the `log.Logger` flag word, `log.Lmsgprefix` vs `0`, and with an empty
prefix and no date flags both loggers emit the bare message.) -/
def New : LogExtended :=
  { logLevel := LogLevelInfo
    bufWriter := some ⟨Dest.console⟩
    logFile := none }

/-- The package-level singleton of `mlog/mlog.go`: `var mlog = logger.New()`. -/
def mlogSingleton : LogExtended := New

/-- Go `func (l *LogExtended) SetLogLevel(lvl LogLevel)`: takes the lock and
assigns `l.logLevel` (identical in both variants).  Returns the new state and
the (empty) list of I/O effects performed. -/
def SetLogLevel (l : LogExtended) (lvl : LogLevel) : LogExtended × List Effect :=
  ({ l with logLevel := lvl }, [])

/-- Variant 1 `SetOutput`: flush the current buffer, attempt the open, and
only on success close the previous file and install a buffered writer over
the new file alone.  `openRes` injects the result of
`os.OpenFile(filePath, os.O_CREATE|os.O_WRONLY|os.O_APPEND, 0666)`. -/
def SetOutputV1 (l : LogExtended) (filePath : String) (openRes : Except IOErr Nat) :
    Except IOErr LogExtended × List Effect :=
  let flushEffs : List Effect :=
    match l.bufWriter with
    | some b => [Effect.flushBuf b.dest]
    | none => []
  match openRes with
  | .error e => (.error e, flushEffs ++ [Effect.openAttempt filePath])
  | .ok h =>
      let closeEffs : List Effect :=
        match l.logFile with
        | some old => [Effect.closeFile old]
        | none => []
      (.ok { l with bufWriter := some ⟨Dest.fileDest h⟩, logFile := some h },
        flushEffs ++ [Effect.openAttempt filePath] ++ closeEffs)

/-- Variant 2 `SetOutput`: flush the current buffer, close the previous file,
then attempt the open; on success install a buffered writer over
`io.MultiWriter(file, os.Stdout)`.  Note the close of the previous backing
file happens before the open is attempted, so it is performed even when the
open fails (and the struct fields are left pointing at the closed file).
`openRes` injects the result of
`os.OpenFile(filepath, os.O_RDWR|os.O_CREATE|os.O_APPEND, 0666)`. -/
def SetOutputV2 (l : LogExtended) (filePath : String) (openRes : Except IOErr Nat) :
    Except IOErr LogExtended × List Effect :=
  let flushEffs : List Effect :=
    match l.bufWriter with
    | some b => [Effect.flushBuf b.dest]
    | none => []
  let closeEffs : List Effect :=
    match l.logFile with
    | some old => [Effect.closeFile old]
    | none => []
  match openRes with
  | .error e => (.error e, flushEffs ++ closeEffs ++ [Effect.openAttempt filePath])
  | .ok h =>
      (.ok { l with
              bufWriter := some ⟨Dest.multi (Dest.fileDest h) Dest.console⟩
              logFile := some h },
        flushEffs ++ closeEffs ++ [Effect.openAttempt filePath])

/-- Body of variant 1 `Flush` once the lock is held: flush the buffer if
present and return its error; no file sync.  `bufErr` injects the result of
`bufio.Writer.Flush`. -/
def flushBodyV1 (l : LogExtended) (bufErr : Option IOErr) :
    Option IOErr × List Effect :=
  match l.bufWriter with
  | some b => (bufErr, [Effect.flushBuf b.dest])
  | none => (none, [])

/-- Body of variant 2 `Flush` once the lock is held: flush the buffer; if
that errors, return immediately (the sync is not attempted); otherwise sync
the backing file if one is open and return the sync result.  `bufErr` and
`syncErr` inject the results of `bufio.Writer.Flush` and `os.File.Sync`. -/
def flushBodyV2 (l : LogExtended) (bufErr syncErr : Option IOErr) :
    Option IOErr × List Effect :=
  match l.bufWriter with
  | some b =>
      match bufErr with
      | some e => (some e, [Effect.flushBuf b.dest])
      | none =>
          match l.logFile with
          | some h => (syncErr, [Effect.flushBuf b.dest, Effect.syncFile h])
          | none => (none, [Effect.flushBuf b.dest])
  | none =>
      match l.logFile with
      | some h => (syncErr, [Effect.syncFile h])
      | none => (none, [])

/-- Variant 1 `Flush`: acquires `l.mu.Lock()` first.  `muHeld` records
whether the calling goroutine already holds the exclusive lock; Go's
`sync.RWMutex` is not reentrant, so acquiring it while held blocks forever,
modelled as `none`. -/
def FlushV1 (muHeld : Bool) (l : LogExtended) (bufErr : Option IOErr) :
    Option (Option IOErr × List Effect) :=
  if muHeld then none else some (flushBodyV1 l bufErr)

/-- Variant 2 `Flush`: acquires `l.mu.Lock()` first; `none` is the
never-completing acquisition of an already-held non-reentrant lock. -/
def FlushV2 (muHeld : Bool) (l : LogExtended) (bufErr syncErr : Option IOErr) :
    Option (Option IOErr × List Effect) :=
  if muHeld then none else some (flushBodyV2 l bufErr syncErr)

/-- An argument to Go's `fmt` functions, restricted to the kinds the claims
exercise: strings and integers. -/
inductive FmtArg where
  | str : String → FmtArg
  | int : Int → FmtArg
deriving DecidableEq, Repr

/-- How one `fmt` verb renders one argument.  `%s` on a string is the string,
`%d` on an integer is its decimal rendering, `%v` is the default format of
either.  Go prints a `%!verb(...)` diagnostic on a mismatch rather than
failing; the diagnostic text is abbreviated here since no call site of the
repository hits it. -/
def renderVerb (c : Char) (a : FmtArg) : String :=
  match c, a with
  | 's', .str s => s
  | 'd', .int n => toString n
  | 'v', .str s => s
  | 'v', .int n => toString n
  | _, _ => "%!" ++ String.singleton c ++ "(BADVERB)"

/-- Model of Go `fmt.Sprintf` over the format characters, restricted to the
verbs `%%`, `%s`, `%d`, `%v` used by the repository; a verb with no argument
left renders Go's `%!verb(MISSING)` diagnostic. -/
def sprintfAux : List Char → List FmtArg → List Char
  | [], _ => []
  | '%' :: '%' :: rest, args => '%' :: sprintfAux rest args
  | '%' :: c :: rest, a :: as => (renderVerb c a).data ++ sprintfAux rest as
  | '%' :: c :: rest, [] => ("%!" ++ String.singleton c ++ "(MISSING)").data ++ sprintfAux rest []
  | c :: rest, args => c :: sprintfAux rest args

/-- Model of Go `fmt.Sprintf` (restricted as in `sprintfAux`). -/
def sprintfGo (format : String) (args : List FmtArg) : String :=
  ⟨sprintfAux format.data args⟩

/-- Go `formatMessage` (both variants):
`fmt.Sprintf("[%s] [%s] %v", timestamp, lvl.String(), fmt.Sprint(args...))`.
`ts` injects the wall-clock timestamp already rendered by
`time.Now().Format("2006-01-02 15:04:05")`, and `rendered` is the
`fmt.Sprint(args...)` concatenation of the variadic arguments. -/
def formatMessage (ts : String) (lvl : LogLevel) (rendered : String) : String :=
  sprintfGo "[%s] [%s] %v" [.str ts, .str (levelString lvl), .str rendered]

/-- Go `formatMessagef` (both variants; they differ only in parameter order):
`fmt.Sprintf("[%s] [%s] %s", timestamp, lvl.String(), fmt.Sprintf(format, args...))`. -/
def formatMessagef (ts : String) (lvl : LogLevel) (format : String)
    (args : List FmtArg) : String :=
  sprintfGo "[%s] [%s] %s" [.str ts, .str (levelString lvl), .str (sprintfGo format args)]

/-- Outcome of a leveled write call: a normal return with the resulting
state, a process exit, or a goroutine blocked forever on a lock it can never
acquire.  Each outcome carries the I/O effects performed before it. -/
inductive LogResult where
  | ret : LogExtended → List Effect → LogResult
  | exited : Nat → List Effect → LogResult
  | deadlocked : List Effect → LogResult
deriving DecidableEq, Repr

/-- The effect trace of a leveled write outcome. -/
def LogResult.effects : LogResult → List Effect
  | .ret _ e => e
  | .exited _ e => e
  | .deadlocked e => e

/-- Whether a leveled write produced any line on its sink. -/
def LogResult.emitsLine (r : LogResult) : Bool :=
  r.effects.any fun e =>
    match e with
    | .writeLine _ _ => true
    | _ => false

/-- Variant 1 `Log`: takes `l.mu.Lock()`, returns below the threshold,
otherwise prints `formatMessage` through the logger (`Println` appends the
single terminating newline and discards any write error, injected as
`writeErr`); at `LogLevelFatal` it calls `l.Flush()` — an acquisition of the
already-held lock — then would close the file and `os.Exit(1)`. -/
def LogV1 (l : LogExtended) (ts : String) (lvl : LogLevel) (rendered : String)
    (writeErr : Option IOErr) : LogResult :=
  if lvl < l.logLevel then .ret l []
  else
    let wEffs : List Effect :=
      [Effect.writeLine (formatMessage ts lvl rendered ++ "\n") l.sinkDest]
    if lvl = LogLevelFatal then
      match FlushV1 true l none with
      | none => .deadlocked wEffs
      | some (_, fe) =>
          let closeEffs : List Effect :=
            match l.logFile with
            | some h => [Effect.closeFile h]
            | none => []
          .exited 1 (wEffs ++ fe ++ closeEffs ++ [Effect.exitProcess 1])
    else .ret l wEffs

/-- Variant 2 `Log`: snapshots the level under `RLock`, returns below the
threshold, otherwise takes `l.mu.Lock()` and prints as in variant 1; at
`LogLevelFatal` it calls `l.Flush()` — again an acquisition of the
already-held lock — then would close the file and `os.Exit(1)`. -/
def LogV2 (l : LogExtended) (ts : String) (lvl : LogLevel) (rendered : String)
    (writeErr : Option IOErr) : LogResult :=
  if lvl < l.logLevel then .ret l []
  else
    let wEffs : List Effect :=
      [Effect.writeLine (formatMessage ts lvl rendered ++ "\n") l.sinkDest]
    if lvl = LogLevelFatal then
      match FlushV2 true l none none with
      | none => .deadlocked wEffs
      | some (_, fe) =>
          let closeEffs : List Effect :=
            match l.logFile with
            | some h => [Effect.closeFile h]
            | none => []
          .exited 1 (wEffs ++ fe ++ closeEffs ++ [Effect.exitProcess 1])
    else .ret l wEffs

/-- Variant 1 `Logf` / variant 2 `Logf`: identical to `Log` except the
message is `formatMessagef` of the template and arguments. -/
def Logf (l : LogExtended) (ts : String) (lvl : LogLevel) (format : String)
    (args : List FmtArg) (writeErr : Option IOErr) : LogResult :=
  if lvl < l.logLevel then .ret l []
  else
    let wEffs : List Effect :=
      [Effect.writeLine (formatMessagef ts lvl format args ++ "\n") l.sinkDest]
    if lvl = LogLevelFatal then
      match FlushV2 true l none none with
      | none => .deadlocked wEffs
      | some (_, fe) =>
          let closeEffs : List Effect :=
            match l.logFile with
            | some h => [Effect.closeFile h]
            | none => []
          .exited 1 (wEffs ++ fe ++ closeEffs ++ [Effect.exitProcess 1])
    else .ret l wEffs

/-- `func (l *LogExtended) Debug(args ...)` — forwards to `Log` at Debug. -/
def Debug (l : LogExtended) (ts rendered : String) (writeErr : Option IOErr) : LogResult :=
  LogV2 l ts LogLevelDebug rendered writeErr

/-- `func (l *LogExtended) Info(args ...)` — forwards to `Log` at Info. -/
def Info (l : LogExtended) (ts rendered : String) (writeErr : Option IOErr) : LogResult :=
  LogV2 l ts LogLevelInfo rendered writeErr

/-- `func (l *LogExtended) Warn(args ...)` — forwards to `Log` at Warning. -/
def Warn (l : LogExtended) (ts rendered : String) (writeErr : Option IOErr) : LogResult :=
  LogV2 l ts LogLevelWarning rendered writeErr

/-- `func (l *LogExtended) Error(args ...)` — forwards to `Log` at Error. -/
def ErrorW (l : LogExtended) (ts rendered : String) (writeErr : Option IOErr) : LogResult :=
  LogV2 l ts LogLevelError rendered writeErr

/-- `func (l *LogExtended) Infof(format, args ...)` — forwards to `Logf` at Info. -/
def Infof (l : LogExtended) (ts format : String) (args : List FmtArg)
    (writeErr : Option IOErr) : LogResult :=
  Logf l ts LogLevelInfo format args writeErr

end Mlog


namespace Mlog

/-- The formatter produces exactly the bracketed header followed by the
message, with nothing (in particular no newline) appended after the message. -/
theorem formatMessage_eq (ts : String) (lvl : LogLevel) (msg : String) :
    formatMessage ts lvl msg = "[" ++ ts ++ "] [" ++ levelString lvl ++ "] " ++ msg := by
  apply String.ext
  simp [formatMessage, sprintfGo, sprintfAux, renderVerb, String.data_append]

/-- The formatted variant produces the same header followed by the rendered
template. -/
theorem formatMessagef_eq (ts : String) (lvl : LogLevel) (format : String)
    (args : List FmtArg) :
    formatMessagef ts lvl format args
      = "[" ++ ts ++ "] [" ++ levelString lvl ++ "] " ++ sprintfGo format args := by
  apply String.ext
  simp [formatMessagef, sprintfGo, sprintfAux, renderVerb, String.data_append]

/-- An accepted non-fatal write returns normally with exactly one line
written to the sink, the state unchanged, independent of the injected write
error. -/
theorem logV2_accepted_nonfatal (l : LogExtended) (ts : String) (lvl : LogLevel)
    (msg : String) (we : Option IOErr) (hacc : l.logLevel ≤ lvl)
    (hnf : lvl ≠ LogLevelFatal) :
    LogV2 l ts lvl msg we
      = .ret l [Effect.writeLine (formatMessage ts lvl msg ++ "\n") l.sinkDest] := by
  have h1 : ¬ lvl < l.logLevel := not_lt.mpr hacc
  simp [LogV2, h1, hnf]

/-- Same fact for variant 1 `Log`. -/
theorem logV1_accepted_nonfatal (l : LogExtended) (ts : String) (lvl : LogLevel)
    (msg : String) (we : Option IOErr) (hacc : l.logLevel ≤ lvl)
    (hnf : lvl ≠ LogLevelFatal) :
    LogV1 l ts lvl msg we
      = .ret l [Effect.writeLine (formatMessage ts lvl msg ++ "\n") l.sinkDest] := by
  have h1 : ¬ lvl < l.logLevel := not_lt.mpr hacc
  simp [LogV1, h1, hnf]

/-- A below-threshold write returns immediately: state unchanged and no
effects at all. -/
theorem log_below_threshold (l : LogExtended) (ts : String) (lvl : LogLevel)
    (msg : String) (we : Option IOErr) (hlt : lvl < l.logLevel) :
    LogV2 l ts lvl msg we = .ret l [] ∧ LogV1 l ts lvl msg we = .ret l [] := by
  constructor <;> simp [LogV2, LogV1, hlt]

/-- An accepted fatal write deadlocks inside `Flush` (the exclusive lock is
already held), after having written its line. -/
theorem log_fatal_deadlocks (l : LogExtended) (ts : String) (msg : String)
    (we : Option IOErr) (hacc : l.logLevel ≤ LogLevelFatal) :
    LogV2 l ts LogLevelFatal msg we
      = .deadlocked [Effect.writeLine (formatMessage ts LogLevelFatal msg ++ "\n") l.sinkDest]
    ∧ LogV1 l ts LogLevelFatal msg we
      = .deadlocked [Effect.writeLine (formatMessage ts LogLevelFatal msg ++ "\n") l.sinkDest] := by
  have h1 : ¬ LogLevelFatal < l.logLevel := not_lt.mpr hacc
  constructor <;> simp [LogV2, LogV1, h1, FlushV2, FlushV1]

end Mlog

namespace Mlog

/-- `Logf` accepted non-fatal writes return normally with exactly one
formatted line, state unchanged. -/
theorem logf_accepted_nonfatal (l : LogExtended) (ts : String) (lvl : LogLevel)
    (fmtStr : String) (args : List FmtArg) (we : Option IOErr)
    (hacc : l.logLevel ≤ lvl) (hnf : lvl ≠ LogLevelFatal) :
    Logf l ts lvl fmtStr args we
      = .ret l [Effect.writeLine (formatMessagef ts lvl fmtStr args ++ "\n") l.sinkDest] := by
  have h1 : ¬ lvl < l.logLevel := not_lt.mpr hacc
  simp [Logf, h1, hnf]

/-- `Logf` below the threshold returns immediately with no effects. -/
theorem logf_below_threshold (l : LogExtended) (ts : String) (lvl : LogLevel)
    (fmtStr : String) (args : List FmtArg) (we : Option IOErr)
    (hlt : lvl < l.logLevel) :
    Logf l ts lvl fmtStr args we = .ret l [] := by
  simp [Logf, hlt]

/-- A logger state in which an earlier redirection installed the tee over
file handle 7: exactly the state `SetOutputV2` produces from `New` when the
open of the first path succeeds with handle 7. -/
def lC1 : LogExtended :=
  { logLevel := LogLevelInfo
    bufWriter := some ⟨Dest.multi (Dest.fileDest 7) Dest.console⟩
    logFile := some 7 }

/-- Claim C1, evaluated on the code at the failing input: variant 2
`SetOutput` closes the previously open backing file before it attempts the
open, so when the open fails it returns the error after the previous file
has already been closed, and the still-installed sink tees into that closed
file.  Variant 1 closes the old file only after a successful open and does
leave it intact. -/
theorem C1_setOutput_failure_closes_previous_file :
    (SetOutputV2 New "app.log" (Except.ok 7)).1 = Except.ok lC1
    ∧ (SetOutputV2 lC1 "/no/such/dir/app.log" (Except.error ⟨"no such directory"⟩)).1
        = Except.error ⟨"no such directory"⟩
    ∧ (SetOutputV2 lC1 "/no/such/dir/app.log" (Except.error ⟨"no such directory"⟩)).2
        = [Effect.flushBuf (Dest.multi (Dest.fileDest 7) Dest.console),
           Effect.closeFile 7,
           Effect.openAttempt "/no/such/dir/app.log"]
    ∧ Effect.closeFile 7
        ∈ (SetOutputV2 lC1 "/no/such/dir/app.log" (Except.error ⟨"no such directory"⟩)).2
    ∧ Effect.closeFile 7
        ∉ (SetOutputV1 lC1 "/no/such/dir/app.log" (Except.error ⟨"no such directory"⟩)).2 := by
  refine ⟨rfl, rfl, rfl, ?_, ?_⟩ <;> decide

/-- Claim C2, evaluated on the code at the failing input: a Fatal-level
write that passes the threshold writes its line and then calls `Flush`,
which tries to acquire the exclusive lock the write path already holds.
Go's `sync.RWMutex` is not reentrant and no one can release it, so the
flush never completes: neither the buffer flush, nor the file close, nor
`os.Exit(1)` is reached, and the goroutine blocks forever instead of
terminating the process. -/
theorem C2_fatal_write_deadlocks :
    LogV1 New "2026-02-03 04:05:06" LogLevelFatal "shutdown" none
      = .deadlocked [Effect.writeLine "[2026-02-03 04:05:06] [FATAL] shutdown\n" Dest.console]
    ∧ LogV2 New "2026-02-03 04:05:06" LogLevelFatal "shutdown" none
      = .deadlocked [Effect.writeLine "[2026-02-03 04:05:06] [FATAL] shutdown\n" Dest.console]
    ∧ Effect.exitProcess 1
        ∉ (LogV2 New "2026-02-03 04:05:06" LogLevelFatal "shutdown" none).effects
    ∧ Effect.flushBuf Dest.console
        ∉ (LogV2 New "2026-02-03 04:05:06" LogLevelFatal "shutdown" none).effects := by
  decide

/-- Claim C3, counterexample to the claim as stated: in variant 1 a
successful `SetOutput` installs a buffered writer over the new file alone —
the console stream is not among the targets of the new sink, so subsequent
writes do not appear on the console. -/
theorem C3_counterexample :
    (SetOutputV1 New "app.log" (Except.ok 5)).1
      = Except.ok { logLevel := LogLevelInfo
                    bufWriter := some ⟨Dest.fileDest 5⟩
                    logFile := some 5 }
    ∧ Dest.console ∉ (Dest.fileDest 5).targets := by
  refine ⟨rfl, ?_⟩
  decide

/-- Claim C3 as amended: after a successful `SetOutput`, variant 2 installs
a buffered writer over `MultiWriter(file, stdout)` whose targets are exactly
the new file and the console, while variant 1 installs a buffered writer
over the new file alone; an accepted write after the variant 2 redirection
goes to the tee of both. -/
theorem C3_setOutput_success_sink (l : LogExtended) (path : String) (h : Nat) :
    (SetOutputV2 l path (Except.ok h)).1
      = Except.ok { l with
                     bufWriter := some ⟨Dest.multi (Dest.fileDest h) Dest.console⟩
                     logFile := some h }
    ∧ (Dest.multi (Dest.fileDest h) Dest.console).targets
        = [Dest.fileDest h, Dest.console]
    ∧ (SetOutputV1 l path (Except.ok h)).1
      = Except.ok { l with bufWriter := some ⟨Dest.fileDest h⟩, logFile := some h }
    ∧ (Dest.fileDest h).targets = [Dest.fileDest h]
    ∧ Info { New with
              bufWriter := some ⟨Dest.multi (Dest.fileDest h) Dest.console⟩
              logFile := some h }
        "2026-02-03 04:05:06" "ready" none
      = .ret { New with
                bufWriter := some ⟨Dest.multi (Dest.fileDest h) Dest.console⟩
                logFile := some h }
          [Effect.writeLine "[2026-02-03 04:05:06] [INFO] ready\n"
            (Dest.multi (Dest.fileDest h) Dest.console)] := by
  refine ⟨rfl, rfl, rfl, rfl, rfl⟩

/-- A logger state with the tee over file handle 3 installed. -/
def lC4 : LogExtended :=
  { logLevel := LogLevelInfo
    bufWriter := some ⟨Dest.multi (Dest.fileDest 3) Dest.console⟩
    logFile := some 3 }

/-- Claim C4, counterexample to the claim as stated: when the buffer flush
fails, variant 2 `Flush` returns that error immediately and the file sync is
not attempted, so the two steps are not both performed. -/
theorem C4_counterexample :
    FlushV2 false lC4 (some ⟨"short write"⟩) none
      = some (some ⟨"short write"⟩,
              [Effect.flushBuf (Dest.multi (Dest.fileDest 3) Dest.console)])
    ∧ Effect.syncFile 3 ∉ (flushBodyV2 lC4 (some ⟨"short write"⟩) none).2 := by
  decide

/-- Claim C4 as amended: `Flush` (variant 2) flushes the buffer and, only
when that flush succeeds and a backing file is open, syncs the file and
returns the sync result; when the buffer flush fails it returns that error
immediately without attempting the sync.  Variant 1 `Flush` only flushes
the buffer and never syncs. -/
theorem C4_flush_sync_only_after_clean_buffer_flush
    (l : LogExtended) (b : BufWriter) (h : Nat) (se : Option IOErr) (e : IOErr)
    (hb : l.bufWriter = some b) (hf : l.logFile = some h) :
    FlushV2 false l none se = some (se, [Effect.flushBuf b.dest, Effect.syncFile h])
    ∧ FlushV2 false l (some e) se = some (some e, [Effect.flushBuf b.dest])
    ∧ Effect.syncFile h ∉ (flushBodyV2 l (some e) se).2
    ∧ FlushV1 false l (some e) = some (some e, [Effect.flushBuf b.dest])
    ∧ Effect.syncFile h ∉ (flushBodyV1 l (some e)).2 := by
  refine ⟨?_, ?_, ?_, ?_, ?_⟩ <;>
    simp [FlushV2, FlushV1, flushBodyV2, flushBodyV1, hb, hf]

/-- Witness for C4's amended theorem at a concrete state. -/
theorem C4_witness :
    FlushV2 false lC4 none none
      = some (none, [Effect.flushBuf (Dest.multi (Dest.fileDest 3) Dest.console),
                     Effect.syncFile 3])
    ∧ FlushV2 false lC4 (some ⟨"short write"⟩) (some ⟨"sync fails"⟩)
      = some (some ⟨"short write"⟩,
              [Effect.flushBuf (Dest.multi (Dest.fileDest 3) Dest.console)]) := by
  have h := C4_flush_sync_only_after_clean_buffer_flush lC4
    ⟨Dest.multi (Dest.fileDest 3) Dest.console⟩ 3 none ⟨"short write"⟩ rfl rfl
  have h2 := C4_flush_sync_only_after_clean_buffer_flush lC4
    ⟨Dest.multi (Dest.fileDest 3) Dest.console⟩ 3 (some ⟨"sync fails"⟩) ⟨"short write"⟩ rfl rfl
  exact ⟨h.1, h2.2.1⟩

end Mlog

namespace Mlog

/-- Claim C5: a leveled write emits a line exactly when its level is at
least the threshold (the filter is the comparison on the ordered constants
Debug = 0 < Info = 1 < Warning = 2 < Error = 3 < Fatal = 4), and a
below-threshold write returns at once with the state unchanged and no
effects — no formatting and no I/O.  Stated for both variants. -/
theorem C5_threshold_filter_exact (l : LogExtended) (ts : String)
    (lvl : LogLevel) (msg : String) (we : Option IOErr) :
    ((LogV2 l ts lvl msg we).emitsLine = true ↔ l.logLevel ≤ lvl)
    ∧ ((LogV1 l ts lvl msg we).emitsLine = true ↔ l.logLevel ≤ lvl)
    ∧ (lvl < l.logLevel →
        LogV2 l ts lvl msg we = .ret l [] ∧ LogV1 l ts lvl msg we = .ret l []) := by
  by_cases h1 : lvl < l.logLevel
  · obtain ⟨e2, e1⟩ := log_below_threshold l ts lvl msg we h1
    rw [e2, e1]
    refine ⟨?_, ?_, fun _ => ⟨rfl, rfl⟩⟩ <;>
      simp [LogResult.emitsLine, LogResult.effects, not_le.mpr h1]
  · have hacc : l.logLevel ≤ lvl := not_lt.mp h1
    by_cases h2 : lvl = LogLevelFatal
    · subst h2
      obtain ⟨e2, e1⟩ := log_fatal_deadlocks l ts msg we hacc
      rw [e2, e1]
      refine ⟨?_, ?_, fun hlt => absurd hlt h1⟩ <;>
        simp [LogResult.emitsLine, LogResult.effects, hacc]
    · rw [logV2_accepted_nonfatal l ts lvl msg we hacc h2,
        logV1_accepted_nonfatal l ts lvl msg we hacc h2]
      refine ⟨?_, ?_, fun hlt => absurd hlt h1⟩ <;>
        simp [LogResult.emitsLine, LogResult.effects, hacc]

/-- Witness for C5 at concrete inputs: with the default Info threshold a
Debug write produces nothing, an Info write emits its line. -/
theorem C5_witness :
    LogV2 New "2026-02-03 04:05:06" LogLevelDebug "m" none = .ret New []
    ∧ (LogV2 New "2026-02-03 04:05:06" LogLevelInfo "m" none).emitsLine = true := by
  refine ⟨((C5_threshold_filter_exact New "2026-02-03 04:05:06" LogLevelDebug "m"
    none).2.2 (by decide)).1, ?_⟩
  exact (C5_threshold_filter_exact New "2026-02-03 04:05:06" LogLevelInfo "m"
    none).1.mpr (by decide)

/-- Claim C6: the formatter yields exactly the bracketed
timestamp-and-level header followed by the message with nothing appended
after it, the sink-write step appends exactly one newline to the formatted
line, and the formatted variant renders its template with the substitution
arguments — the `infof` example yields a line ending in
"[INFO] cart has 3 items". -/
theorem C6_line_format (l : LogExtended) (ts : String) (lvl : LogLevel)
    (msg fmtStr : String) (args : List FmtArg) (we : Option IOErr)
    (hacc : l.logLevel ≤ lvl) (hnf : lvl ≠ LogLevelFatal) :
    formatMessage ts lvl msg
      = "[" ++ ts ++ "] [" ++ levelString lvl ++ "] " ++ msg
    ∧ formatMessagef ts lvl fmtStr args
      = "[" ++ ts ++ "] [" ++ levelString lvl ++ "] " ++ sprintfGo fmtStr args
    ∧ LogV2 l ts lvl msg we
      = .ret l [Effect.writeLine (formatMessage ts lvl msg ++ "\n") l.sinkDest]
    ∧ sprintfGo "%s has %d items" [.str "cart", .int 3] = "cart has 3 items"
    ∧ Infof New "2026-02-03 04:05:06" "%s has %d items" [.str "cart", .int 3] none
      = .ret New [Effect.writeLine "[2026-02-03 04:05:06] [INFO] cart has 3 items\n"
          Dest.console] := by
  exact ⟨formatMessage_eq ts lvl msg, formatMessagef_eq ts lvl fmtStr args,
    logV2_accepted_nonfatal l ts lvl msg we hacc hnf, by decide, by decide⟩

/-- Witness for C6 at concrete inputs. -/
theorem C6_witness :
    LogV2 New "2026-02-03 04:05:06" LogLevelWarning "disk low" none
      = .ret New [Effect.writeLine "[2026-02-03 04:05:06] [WARNING] disk low\n"
          Dest.console] := by
  have h := C6_line_format New "2026-02-03 04:05:06" LogLevelWarning "disk low"
    "%s" [] none (by decide) (by decide)
  rw [h.2.2.1]
  decide

/-- Claim C7: non-fatal leveled writes have no failure mode — the outcome
type carries no error, the result does not depend on the injected result of
the underlying write (the error is swallowed), the call returns normally
with the state unchanged, and every convenience operation is pure
forwarding to the primitive at a fixed severity. -/
theorem C7_writes_surface_no_error (l : LogExtended) (ts msg fmtStr : String)
    (lvl : LogLevel) (args : List FmtArg) (e1 e2 : Option IOErr)
    (hnf : lvl ≠ LogLevelFatal) :
    LogV2 l ts lvl msg e1 = LogV2 l ts lvl msg e2
    ∧ LogV1 l ts lvl msg e1 = LogV1 l ts lvl msg e2
    ∧ Logf l ts lvl fmtStr args e1 = Logf l ts lvl fmtStr args e2
    ∧ (∃ effs, LogV2 l ts lvl msg e1 = .ret l effs)
    ∧ (∃ effs, LogV1 l ts lvl msg e1 = .ret l effs)
    ∧ (∃ effs, Logf l ts lvl fmtStr args e1 = .ret l effs)
    ∧ Debug l ts msg e1 = LogV2 l ts LogLevelDebug msg e1
    ∧ Info l ts msg e1 = LogV2 l ts LogLevelInfo msg e1
    ∧ Warn l ts msg e1 = LogV2 l ts LogLevelWarning msg e1
    ∧ ErrorW l ts msg e1 = LogV2 l ts LogLevelError msg e1
    ∧ Infof l ts fmtStr args e1 = Logf l ts LogLevelInfo fmtStr args e1 := by
  refine ⟨rfl, rfl, rfl, ?_, ?_, ?_, rfl, rfl, rfl, rfl, rfl⟩
  · by_cases h1 : lvl < l.logLevel
    · exact ⟨[], (log_below_threshold l ts lvl msg e1 h1).1⟩
    · exact ⟨_, logV2_accepted_nonfatal l ts lvl msg e1 (not_lt.mp h1) hnf⟩
  · by_cases h1 : lvl < l.logLevel
    · exact ⟨[], (log_below_threshold l ts lvl msg e1 h1).2⟩
    · exact ⟨_, logV1_accepted_nonfatal l ts lvl msg e1 (not_lt.mp h1) hnf⟩
  · by_cases h1 : lvl < l.logLevel
    · exact ⟨[], logf_below_threshold l ts lvl fmtStr args e1 h1⟩
    · exact ⟨_, logf_accepted_nonfatal l ts lvl fmtStr args e1 (not_lt.mp h1) hnf⟩

/-- Witness for C7 at concrete inputs: an Error write with a failing
underlying write behaves exactly like one whose write succeeds, and returns
normally. -/
theorem C7_witness :
    LogV2 New "2026-02-03 04:05:06" LogLevelError "boom" (some ⟨"broken pipe"⟩)
      = LogV2 New "2026-02-03 04:05:06" LogLevelError "boom" none
    ∧ (∃ effs, LogV2 New "2026-02-03 04:05:06" LogLevelError "boom"
        (some ⟨"broken pipe"⟩) = .ret New effs) := by
  have h := C7_writes_surface_no_error New "2026-02-03 04:05:06" "boom" "%s"
    LogLevelError [] (some ⟨"broken pipe"⟩) none (by decide)
  exact ⟨h.1, h.2.2.2.1⟩

/-- Claim C8: a freshly constructed logger — and hence the package-level
singleton `var mlog = logger.New()` — has threshold Info, a buffered sink
wrapping the console stream, and no backing file open. -/
theorem C8_new_defaults :
    New.logLevel = LogLevelInfo
    ∧ New.bufWriter = some ⟨Dest.console⟩
    ∧ New.logFile = none
    ∧ New.sinkDest = Dest.console
    ∧ mlogSingleton = New :=
  ⟨rfl, rfl, rfl, rfl, rfl⟩

/-- Claim C9: the level-to-string rendering is total — the five defined
severities map to their fixed names and every other integer value maps to
"UNKNOWN". -/
theorem C9_levelString_total (n : LogLevel) (h0 : n ≠ LogLevelDebug)
    (h1 : n ≠ LogLevelInfo) (h2 : n ≠ LogLevelWarning)
    (h3 : n ≠ LogLevelError) (h4 : n ≠ LogLevelFatal) :
    levelString LogLevelDebug = "DEBUG"
    ∧ levelString LogLevelInfo = "INFO"
    ∧ levelString LogLevelWarning = "WARNING"
    ∧ levelString LogLevelError = "ERROR"
    ∧ levelString LogLevelFatal = "FATAL"
    ∧ levelString n = "UNKNOWN" := by
  refine ⟨rfl, rfl, rfl, rfl, rfl, ?_⟩
  simp [levelString, h0, h1, h2, h3, h4]

/-- Witness for C9 at concrete out-of-range values (int8 admits -128..127). -/
theorem C9_witness : levelString 100 = "UNKNOWN" ∧ levelString (-1) = "UNKNOWN" := by
  refine ⟨?_, ?_⟩
  · exact (C9_levelString_total 100 (by decide) (by decide) (by decide) (by decide)
      (by decide)).2.2.2.2.2
  · exact (C9_levelString_total (-1) (by decide) (by decide) (by decide) (by decide)
      (by decide)).2.2.2.2.2

/-- Claim C10: the process-terminating branch fires only at exactly the
Fatal constant — an accepted write at any other level value, including
values numerically above Fatal, emits its line and returns normally with
the state unchanged and no flush, close or exit effect — and `SetLogLevel`
mutates only the threshold field, leaving sink and backing file unchanged
and performing no I/O. -/
theorem C10_fatal_branch_exact_setLogLevel_frame (l : LogExtended)
    (ts msg : String) (lvl lvl2 : LogLevel) (we : Option IOErr)
    (hacc : l.logLevel ≤ lvl) (hnf : lvl ≠ LogLevelFatal) :
    LogV2 l ts lvl msg we
      = .ret l [Effect.writeLine (formatMessage ts lvl msg ++ "\n") l.sinkDest]
    ∧ LogV1 l ts lvl msg we
      = .ret l [Effect.writeLine (formatMessage ts lvl msg ++ "\n") l.sinkDest]
    ∧ (SetLogLevel l lvl2).1.logLevel = lvl2
    ∧ (SetLogLevel l lvl2).1.bufWriter = l.bufWriter
    ∧ (SetLogLevel l lvl2).1.logFile = l.logFile
    ∧ (SetLogLevel l lvl2).2 = [] :=
  ⟨logV2_accepted_nonfatal l ts lvl msg we hacc hnf,
    logV1_accepted_nonfatal l ts lvl msg we hacc hnf, rfl, rfl, rfl, rfl⟩

/-- Witness for C10 at level 5, an int8 value numerically above Fatal: the
write is accepted, rendered as UNKNOWN, and returns normally. -/
theorem C10_witness :
    LogV2 New "2026-02-03 04:05:06" 5 "odd level" none
      = .ret New [Effect.writeLine "[2026-02-03 04:05:06] [UNKNOWN] odd level\n"
          Dest.console]
    ∧ (SetLogLevel New 3).1.bufWriter = New.bufWriter := by
  have h := C10_fatal_branch_exact_setLogLevel_frame New "2026-02-03 04:05:06"
    "odd level" 5 3 none (by decide) (by decide)
  refine ⟨?_, h.2.2.2.1⟩
  rw [h.1]
  decide

end Mlog
